import Mathlib

/-!
# protoc-gen-gokit-endpoint: the generation engine

A shallow embedding of `cmd/protoc-gen-gokit-endpoint/main.go`.

* The three process-wide flags (`withServer`, `withClient`, `withOTEL`) are threaded
  through every emitter as a `Config` value.
* A `protogen.GeneratedFile` is an append-only buffer: every call `file.P(...)` appends
  one entry.  An emitter is modelled by the list of entries it appends, in call order.
* An entry records the call as it is written in the source: `file.P("...")` is
  `Line.lit`, `file.P(fmt.Sprintf(f, a₁, ..., aₙ))` is `Line.sprintf f [a₁, ..., aₙ]`,
  `file.P(a, b)` is `Line.cat [a, b]`.  `Line.render` gives the text of the entry.
* In the string literals below the braces of the Go text are written with their hex
  escapes `\x7b` and `\x7d`.
-/

namespace GokitEndpoint

/-! ## Data model -/

/-- The fields of a `protogen.Method` the generator reads. -/
structure Method where
  /-- `method.GoName` -/
  goName : String
  /-- `method.Desc.FullName()` -/
  fullName : String
  /-- `method.Input.GoIdent.GoName` -/
  inputGoName : String
  /-- `method.Output.GoIdent.GoName` -/
  outputGoName : String
  /-- `method.Desc.IsStreamingServer()` -/
  isStreamingServer : Bool
  /-- `method.Desc.IsStreamingClient()` -/
  isStreamingClient : Bool
deriving DecidableEq, Repr

/-- The fields of a `protogen.Service` the generator reads. -/
structure Service where
  /-- `service.GoName` -/
  goName : String
  /-- `service.Methods` -/
  methods : List Method
deriving DecidableEq, Repr

/-- The fields of a `protogen.File` the generator reads. -/
structure File where
  /-- `file.GeneratedFilenamePrefix` -/
  generatedFilenamePrefix : String
  /-- `file.GoImportPath` -/
  goImportPath : String
  /-- `file.GoPackageName` -/
  goPackageName : String
  /-- `file.Services` -/
  services : List Service
deriving DecidableEq, Repr

/-- The three flags of `main`: `server`, `client`, `OpenTelemetry`. -/
structure Config where
  /-- `*withServer` -/
  withServer : Bool
  /-- `*withClient` -/
  withClient : Bool
  /-- `*withOTEL` -/
  withOTEL : Bool
deriving DecidableEq, Repr

/-- The flag defaults set in `main`: server on, client off, OpenTelemetry off. -/
def Config.default : Config := ⟨true, false, false⟩

/-! ## Emitted entries -/

/-- One call of `file.P`. -/
inductive Line where
  /-- `file.P("...")` -/
  | lit (s : String)
  /-- `file.P(fmt.Sprintf(f, args...))` -/
  | sprintf (f : String) (args : List String)
  /-- `file.P(a, b, ...)`: the arguments are printed one after the other -/
  | cat (parts : List String)
deriving DecidableEq, Repr

/-- Substitution of the `%s` verbs of a format by the arguments, left to right.  A verb
without an argument prints `%!s(MISSING)` as `fmt` does; the source has no other verb. -/
def sprintfAux : List Char → List String → List Char
  | '%' :: 's' :: cs, a :: as => a.data ++ sprintfAux cs as
  | '%' :: 's' :: cs, [] => "%!s(MISSING)".data ++ sprintfAux cs []
  | c :: cs, as => c :: sprintfAux cs as
  | [], _ => []

/-- `fmt.Sprintf` restricted to `%s` verbs. -/
def sprintf (f : String) (args : List String) : String :=
  ⟨sprintfAux f.data args⟩

/-- The text of one entry (without the newline `P` adds after it). -/
def Line.render : Line → String
  | .lit s => s
  | .sprintf f args => GokitEndpoint.sprintf f args
  | .cat parts => String.join parts

/-- The format string of an entry: the part of it that is fixed by the generator. -/
def Line.format : Line → String
  | .lit s => s
  | .sprintf f _ => f
  | .cat _ => ""

/-- The `protogen.GeneratedFile` built by `plugin.NewGeneratedFile(filename, importPath)`
followed by calls of `P`. -/
structure GeneratedFile where
  filename : String
  goImportPath : String
  lines : List Line
deriving DecidableEq, Repr

/-- The text the entries stand for: each entry on its own, followed by a newline. -/
def GeneratedFile.content (g : GeneratedFile) : String :=
  String.join (g.lines.map fun l => l.render ++ "\n")

/-! ## Emitters -/

/-- The loop guard `method.Desc.IsStreamingServer() || method.Desc.IsStreamingClient()`. -/
def Method.isStreaming (m : Method) : Bool :=
  m.isStreamingServer || m.isStreamingClient

/-- The loop `for _, method := range service.Methods` with the `continue` guard on
streaming methods in front of its body. -/
def forUnary (s : Service) (body : Method → List Line) : List Line :=
  s.methods.flatMap fun m => if m.isStreaming then [] else body m

def writeImport (cfg : Config) : List Line :=
  [ .lit "import (",
    .lit "\tcontext \"context\"",
    .lit "\tendpoint \"github.com/go-kit/kit/endpoint\"",
    .lit "\tgrpctransport \"github.com/go-kit/kit/transport/grpc\"",
    .lit "\tlog \"github.com/go-kit/kit/log\"",
    .lit "\tstdopentracing \"github.com/opentracing/opentracing-go\"\n",
    .lit "\topentracing \"github.com/go-kit/kit/tracing/opentracing\"\n",
    .lit "\ttracing \"codeup.aliyun.com/637b8bf70f175f12fbe05cc1/mock-demo/observability/tracing\"" ]
  ++ (if cfg.withOTEL then [.lit "\ttrace \"go.opentelemetry.io/otel/trace\""] else [])
  ++ (if cfg.withClient then [.lit "\tgrpc \"google.golang.org/grpc\""] else [])
  ++ [ .lit ")" ]

def generateGokitEndpoint (service : Service) (method : Method) : List Line :=
  [ .sprintf "func make%sEndpoint(s %sServer) endpoint.Endpoint \x7b" [method.goName, service.goName],
    .lit "\treturn func(ctx context.Context, request interface\x7b\x7d) (interface\x7b\x7d, error) \x7b",
    .sprintf "\t\treq := request.(*%s)" [method.inputGoName],
    .sprintf "\t\treturn s.%s(ctx, req)" [method.goName],
    .lit "\t\x7d",
    .lit "\x7d" ]

def generateEncoderDecoder (_service : Service) (method : Method) : List Line :=
  [ .sprintf "func decode%sRequest(_ context.Context, req interface\x7b\x7d) (interface\x7b\x7d, error) \x7b" [method.goName],
    .lit "\treturn req, nil",
    .lit "\x7d",
    .sprintf "func encode%sResponse(_ context.Context, rsp interface\x7b\x7d) (interface\x7b\x7d, error) \x7b" [method.goName],
    .lit "\treturn rsp, nil",
    .lit "\x7d" ]

def generateHandler (service : Service) (method : Method) : List Line :=
  [ .sprintf "func Make%sHandler(s %sServer) *grpctransport.Server \x7b" [method.goName, service.goName],
    .sprintf "\treturn grpctransport.NewServer(make%sEndpoint(s), decode%sRequest, encode%sResponse )"
      [method.goName, method.goName, method.goName],
    .lit "\x7d" ]

def generateForService (service : Service) : List Line :=
  forUnary service fun method =>
    generateGokitEndpoint service method
    ++ generateEncoderDecoder service method
    ++ generateHandler service method

def generateBuild (service : Service) : List Line :=
  [ .sprintf "func (s *%s) Build() \x7b" [service.goName] ]
  ++ forUnary service (fun method => [ .sprintf "\ts.build%s()" [method.goName] ])
  ++ [ .lit "\x7d" ]

def generateRegisterService (service : Service) : List Line :=
  [ .sprintf "func (s *%s) RegisterService(server *grpc.Server) \x7b" [service.goName],
    .sprintf "\tRegister%sServer(server, s)" [service.goName],
    .lit "\x7d" ]

def generateBuildMethod (cfg : Config) (service : Service) (method : Method) : List Line :=
  [ .sprintf "func (s *%s) build%s() \x7b" [service.goName, method.goName],
    .sprintf "\t%sEndpoint := make%sEndpoint(s.service)" [method.goName, method.goName],
    .lit "\tvar ops []grpctransport.ServerOption",
    .lit "\tif s.tracer != nil \x7b",
    .sprintf "\t\t%sEndpoint = opentracing.TraceServer(s.tracer, \"%s\")(%sEndpoint)"
      [method.goName, method.fullName, method.goName],
    .sprintf "\t\tops = append(ops, grpctransport.ServerBefore(opentracing.GRPCToContext(s.tracer, \"%s\", s.logger)))"
      [method.fullName],
    .lit "\x7d",
    .sprintf "\tfor _, middleware := range s.middlewares \x7b" [],
    .sprintf "\t\t%sEndpoint = middleware(%sEndpoint)" [method.goName, method.goName],
    .lit "\t\x7d" ]
  ++ (if cfg.withOTEL then
        [ .sprintf "\tops = append(ops, grpctransport.ServerBefore(tracing.GRPCToContext(s.tp, \"%s\", s.logger)))"
            [method.fullName],
          .sprintf "\t%sEndpoint = tracing.EndpointMiddleware(\"%s\")(%sEndpoint)"
            [method.goName, method.fullName, method.goName] ]
      else [])
  ++ [ .lit "\tfor _, option := range s.options \x7b",
       .sprintf "\t\tops = append(ops, option(\"%s\"))" [method.fullName],
       .lit "\t\x7d",
       .sprintf "\ts.%sHandler = grpctransport.NewServer(%sEndpoint, decode%sRequest, encode%sResponse, ops...)"
         [method.goName, method.goName, method.goName, method.goName],
       .lit "\x7d" ]

def generateWithOptions (service : Service) : List Line :=
  [ .sprintf "func (s *%s) WithOptions(options ...func(string) grpctransport.ServerOption) \x7b" [service.goName],
    .lit "\ts.options = options",
    .lit "\x7d" ]

def generateWithMiddlewares (service : Service) : List Line :=
  [ .sprintf "func (s *%s) WithMiddlewares(middlewares ...func(endpoint.Endpoint) endpoint.Endpoint) \x7b" [service.goName],
    .lit "\ts.middlewares = middlewares",
    .lit "\x7d" ]

def generateWithTracing (service : Service) : List Line :=
  [ .sprintf "func (s *%s) WithTracing(tracer stdopentracing.Tracer) \x7b" [service.goName],
    .lit "\ts.tracer = tracer",
    .lit "\x7d" ]

def generateServerWithTracerProvider (service : Service) : List Line :=
  [ .sprintf "func (s *%s) WithTracerProvider(tp trace.TracerProvider) \x7b" [service.goName],
    .lit "\ts.tp = tp",
    .lit "\x7d" ]

/-- The dispatch method of one method: the body of the last loop of `generateServer`. -/
def generateDispatch (service : Service) (method : Method) : List Line :=
  [ .sprintf "func (s *%s) %s(ctx context.Context, req *%s) (*%s, error) \x7b"
      [service.goName, method.goName, method.inputGoName, method.outputGoName],
    .sprintf "\t_, response, err := s.%sHandler.ServeGRPC(ctx, req)" [method.goName],
    .lit "\tif err != nil \x7b",
    .lit "\t\treturn nil, err",
    .lit "\t\x7d",
    .sprintf "\treturn response.(*%s), nil" [method.outputGoName],
    .lit "\x7d" ]

def generateServer (cfg : Config) (service : Service) : List Line :=
  [ .sprintf "type %s struct \x7b" [service.goName],
    .sprintf "\tUnimplemented%sServer" [service.goName],
    .sprintf "\tservice %sServer" [service.goName],
    .lit "\toptions []func(string) grpctransport.ServerOption",
    .lit "\tmiddlewares []func(endpoint.Endpoint) endpoint.Endpoint",
    .lit "\ttracer stdopentracing.Tracer",
    .lit "\ttp trace.TracerProvider",
    .lit "\tlogger log.Logger" ]
  ++ forUnary service (fun method => [ .sprintf "\t\t%sHandler grpctransport.Handler" [method.goName] ])
  ++ [ .lit "\x7d",
       .sprintf "func New%s(s %sServer, logger log.Logger) *%s \x7b" [service.goName, service.goName, service.goName],
       .sprintf "\treturn &%s\x7b" [service.goName],
       .lit "\t\tservice: s,",
       .lit "\t\tlogger: logger,",
       .lit "\t\x7d",
       .lit "\x7d" ]
  ++ generateWithOptions service
  ++ generateWithMiddlewares service
  ++ generateWithTracing service
  ++ generateServerWithTracerProvider service
  ++ generateBuild service
  ++ generateRegisterService service
  ++ forUnary service (generateBuildMethod cfg service)
  ++ forUnary service (generateDispatch service)

/-- The lines `generate` appends for one service.  `generateClient` is not part of
`main.go`; it is a parameter: the lines it appends for a service under a configuration. -/
def generateService (generateClient : Config → Service → List Line) (cfg : Config)
    (service : Service) : List Line :=
  (if cfg.withServer then generateForService service ++ generateServer cfg service else [])
  ++ (if cfg.withClient then generateClient cfg service else [])

/-- The function `generate`.  The constant `version` is declared outside `main.go` and is a
parameter, as is `generateClient`. -/
def generate (version : String) (generateClient : Config → Service → List Line)
    (cfg : Config) (file : File) : GeneratedFile :=
  { filename := file.generatedFilenamePrefix ++ "_endpoints.pb.go"
    goImportPath := file.goImportPath
    lines :=
      [ .lit "// Code generated by protoc-gen-gokit-endpoint. DO NOT EDIT.",
        .lit "// versions:",
        .sprintf "// protoc-gen-gokit-endpoint %s" [version],
        .cat [],
        .cat ["package ", file.goPackageName],
        .cat [] ]
      ++ writeImport cfg
      ++ file.services.flatMap (generateService generateClient cfg) }

/-! ## Running example: the `Greeter` service of the specification -/

def sayHello : Method :=
  { goName := "SayHello", fullName := "helloworld.Greeter.SayHello",
    inputGoName := "HelloRequest", outputGoName := "HelloReply",
    isStreamingServer := false, isStreamingClient := false }

def greeter : Service := { goName := "Greeter", methods := [sayHello] }

def helloFile : File :=
  { generatedFilenamePrefix := "helloworld/helloworld", goImportPath := "example.com/helloworld",
    goPackageName := "helloworld", services := [greeter] }

/-! ## Observers of the emitted entries

The properties below are stated on what an entry is, which is decided by its format
string (the literal of the source), never by the names substituted into it. -/

/-- The methods that pass the guard of every method loop. -/
def Service.unary (s : Service) : List Method :=
  s.methods.filter fun m => !m.isStreaming

/-- The service with its streaming methods removed from the method list. -/
def Service.dropStreaming (s : Service) : Service :=
  { s with methods := s.methods.filter fun m => !(m.isStreamingServer || m.isStreamingClient) }

/-- The file with the streaming methods removed from each service. -/
def File.dropStreaming (f : File) : File :=
  { f with services := f.services.map Service.dropStreaming }

/-- The statements of a pipeline builder that bind or reassign the endpoint, append to
`ops`, open one of the two loops, or store the handler. -/
inductive Step where
  /-- `MEndpoint := makeMEndpoint(s.service)` -/
  | base (ep adapter : String)
  /-- `MEndpoint = opentracing.TraceServer(s.tracer, "tag")(MEndpoint)` -/
  | traceWrap (ep tag arg : String)
  /-- `ops = append(ops, grpctransport.ServerBefore(opentracing.GRPCToContext(s.tracer, "tag", s.logger)))` -/
  | traceHook (tag : String)
  /-- `for _, middleware := range s.middlewares` -/
  | middlewareLoop
  /-- `MEndpoint = middleware(MEndpoint)` -/
  | middlewareWrap (ep arg : String)
  /-- `ops = append(ops, grpctransport.ServerBefore(tracing.GRPCToContext(s.tp, "tag", s.logger)))` -/
  | otelHook (tag : String)
  /-- `MEndpoint = tracing.EndpointMiddleware("tag")(MEndpoint)` -/
  | otelWrap (ep tag arg : String)
  /-- `for _, option := range s.options` -/
  | optionLoop
  /-- `ops = append(ops, option("tag"))` -/
  | optionAppend (tag : String)
  /-- `s.MHandler = grpctransport.NewServer(MEndpoint, decodeMRequest, encodeMResponse, ops...)` -/
  | newServer (slot ep dec enc : String)
deriving DecidableEq, Repr

/-- The pipeline step an entry writes, if it writes one. -/
def stepOf : Line → Option Step
  | .sprintf f args =>
    if f = "\t%sEndpoint := make%sEndpoint(s.service)" then
      match args with
      | [a, b] => some (.base a b)
      | _ => none
    else if f = "\t\t%sEndpoint = opentracing.TraceServer(s.tracer, \"%s\")(%sEndpoint)" then
      match args with
      | [a, t, b] => some (.traceWrap a t b)
      | _ => none
    else if f = "\t\tops = append(ops, grpctransport.ServerBefore(opentracing.GRPCToContext(s.tracer, \"%s\", s.logger)))" then
      match args with
      | [t] => some (.traceHook t)
      | _ => none
    else if f = "\tfor _, middleware := range s.middlewares \x7b" then
      match args with
      | [] => some .middlewareLoop
      | _ => none
    else if f = "\t\t%sEndpoint = middleware(%sEndpoint)" then
      match args with
      | [a, b] => some (.middlewareWrap a b)
      | _ => none
    else if f = "\tops = append(ops, grpctransport.ServerBefore(tracing.GRPCToContext(s.tp, \"%s\", s.logger)))" then
      match args with
      | [t] => some (.otelHook t)
      | _ => none
    else if f = "\t%sEndpoint = tracing.EndpointMiddleware(\"%s\")(%sEndpoint)" then
      match args with
      | [a, t, b] => some (.otelWrap a t b)
      | _ => none
    else if f = "\t\tops = append(ops, option(\"%s\"))" then
      match args with
      | [t] => some (.optionAppend t)
      | _ => none
    else if f = "\ts.%sHandler = grpctransport.NewServer(%sEndpoint, decode%sRequest, encode%sResponse, ops...)" then
      match args with
      | [a, b, c, d] => some (.newServer a b c d)
      | _ => none
    else none
  | .lit s =>
    if s = "\tfor _, option := range s.options \x7b" then some .optionLoop
    else none
  | .cat _ => none

/-- The entry applies the tracing decorator `opentracing.TraceServer` to the endpoint. -/
def Line.appliesTracing (l : Line) : Bool :=
  match stepOf l with
  | some (.traceWrap _ _ _) => true
  | _ => false

/-- The entry applies the telemetry decorator `tracing.EndpointMiddleware` to the endpoint. -/
def Line.appliesTelemetry (l : Line) : Bool :=
  match stepOf l with
  | some (.otelWrap _ _ _) => true
  | _ => false

/-- The entry registers the telemetry context-extraction hook `tracing.GRPCToContext`. -/
def Line.extractsTelemetry (l : Line) : Bool :=
  match stepOf l with
  | some (.otelHook _) => true
  | _ => false

/-- The top-level declarations the server-side emitters write. -/
inductive Decl where
  /-- `func makeMEndpoint(s SServer) endpoint.Endpoint` -/
  | adapter (method service : String)
  /-- `func decodeMRequest(...)` -/
  | decoder (method : String)
  /-- `func encodeMResponse(...)` -/
  | encoder (method : String)
  /-- `func MakeMHandler(s SServer) *grpctransport.Server` -/
  | handlerCtor (method service : String)
  /-- `type S struct` -/
  | serverType (service : String)
  /-- `func NewS(s SServer, logger log.Logger) *S` -/
  | newServerType (service : String)
  /-- `func (s *S) WithOptions(...)` -/
  | withOptions (service : String)
  /-- `func (s *S) WithMiddlewares(...)` -/
  | withMiddlewares (service : String)
  /-- `func (s *S) WithTracing(...)` -/
  | withTracing (service : String)
  /-- `func (s *S) WithTracerProvider(...)` -/
  | withTracerProvider (service : String)
  /-- `func (s *S) Build()` -/
  | build (service : String)
  /-- `func (s *S) RegisterService(server *grpc.Server)` -/
  | registerService (service : String)
  /-- `func (s *S) buildM()` -/
  | builder (service method : String)
  /-- `func (s *S) M(ctx context.Context, req *In) (*Out, error)` -/
  | dispatch (service method : String)
deriving DecidableEq, Repr

/-- The top-level declaration an entry opens, if it opens one. -/
def declOf : Line → Option Decl
  | .sprintf f args =>
    if f = "func make%sEndpoint(s %sServer) endpoint.Endpoint \x7b" then
      match args with
      | [m, s] => some (.adapter m s)
      | _ => none
    else if f = "func decode%sRequest(_ context.Context, req interface\x7b\x7d) (interface\x7b\x7d, error) \x7b" then
      match args with
      | [m] => some (.decoder m)
      | _ => none
    else if f = "func encode%sResponse(_ context.Context, rsp interface\x7b\x7d) (interface\x7b\x7d, error) \x7b" then
      match args with
      | [m] => some (.encoder m)
      | _ => none
    else if f = "func Make%sHandler(s %sServer) *grpctransport.Server \x7b" then
      match args with
      | [m, s] => some (.handlerCtor m s)
      | _ => none
    else if f = "type %s struct \x7b" then
      match args with
      | [s] => some (.serverType s)
      | _ => none
    else if f = "func New%s(s %sServer, logger log.Logger) *%s \x7b" then
      match args with
      | [s, _, _] => some (.newServerType s)
      | _ => none
    else if f = "func (s *%s) WithOptions(options ...func(string) grpctransport.ServerOption) \x7b" then
      match args with
      | [s] => some (.withOptions s)
      | _ => none
    else if f = "func (s *%s) WithMiddlewares(middlewares ...func(endpoint.Endpoint) endpoint.Endpoint) \x7b" then
      match args with
      | [s] => some (.withMiddlewares s)
      | _ => none
    else if f = "func (s *%s) WithTracing(tracer stdopentracing.Tracer) \x7b" then
      match args with
      | [s] => some (.withTracing s)
      | _ => none
    else if f = "func (s *%s) WithTracerProvider(tp trace.TracerProvider) \x7b" then
      match args with
      | [s] => some (.withTracerProvider s)
      | _ => none
    else if f = "func (s *%s) Build() \x7b" then
      match args with
      | [s] => some (.build s)
      | _ => none
    else if f = "func (s *%s) RegisterService(server *grpc.Server) \x7b" then
      match args with
      | [s] => some (.registerService s)
      | _ => none
    else if f = "func (s *%s) build%s() \x7b" then
      match args with
      | [s, m] => some (.builder s m)
      | _ => none
    else if f = "func (s *%s) %s(ctx context.Context, req *%s) (*%s, error) \x7b" then
      match args with
      | [s, m, _, _] => some (.dispatch s m)
      | _ => none
    else none
  | .lit _ => none
  | .cat _ => none

/-- The declarations of the block the server-side emitters write for one service:
`generateForService` followed by `generateServer`. -/
def serverDecls (cfg : Config) (s : Service) : List Decl :=
  (generateForService s ++ generateServer cfg s).filterMap declOf

/-- The declarations of a generated unit. -/
def GeneratedFile.decls (g : GeneratedFile) : List Decl :=
  g.lines.filterMap declOf

def Decl.isAdapter : Decl → Bool
  | .adapter _ _ => true
  | _ => false

def Decl.isDecoder : Decl → Bool
  | .decoder _ => true
  | _ => false

def Decl.isEncoder : Decl → Bool
  | .encoder _ => true
  | _ => false

def Decl.isHandlerCtor : Decl → Bool
  | .handlerCtor _ _ => true
  | _ => false

def Decl.isServerType : Decl → Bool
  | .serverType _ => true
  | _ => false

/-- The method whose builder a line of `Build` calls: `s.buildM()`. -/
def calledBuilder : Line → Option String
  | .sprintf f args =>
    if f = "\ts.build%s()" then
      match args with
      | [m] => some m
      | _ => none
    else none
  | _ => none

/-- The method whose builder an entry declares: `func (s *S) buildM()`. -/
def declaredBuilder (l : Line) : Option String :=
  match declOf l with
  | some (.builder _ m) => some m
  | _ => none

/-- The arguments of a format that stand between double quotes: the Go string literals
the entry writes. -/
def quotedArgsAux : List Char → List String → List String
  | '\x22' :: '%' :: 's' :: '\x22' :: cs, a :: as => a :: quotedArgsAux cs as
  | '%' :: 's' :: cs, _ :: as => quotedArgsAux cs as
  | _ :: cs, as => quotedArgsAux cs as
  | [], _ => []

/-- The string literals an entry writes. -/
def Line.quotedArgs : Line → List String
  | .sprintf f args => quotedArgsAux f.data args
  | _ => []

/-- The number of double quotes in the fixed text of an entry. -/
def Line.quoteCount (l : Line) : Nat :=
  l.format.data.count '\x22'

/-- What `main` reads of an input file before it calls `generate`: the flag `f.Generate`
and the file itself. -/
structure PluginFile where
  /-- `f.Generate` -/
  Generate : Bool
  /-- the `*protogen.File` handed to `generate` -/
  file : File
deriving DecidableEq, Repr

/-- The loop of `main` over `gen.Files`, from a given list of already registered
generated files: `plugin.NewGeneratedFile` appends the new unit to that list, and a file
with `f.Generate` unset is skipped. -/
def mainLoop (version : String) (generateClient : Config → Service → List Line)
    (cfg : Config) (files : List PluginFile) (registered : List GeneratedFile) :
    List GeneratedFile :=
  files.foldl
    (fun acc f => if !f.Generate then acc else acc ++ [generate version generateClient cfg f.file])
    registered

/-- The run of the plugin in `main`: the generated files it registers, in order. -/
def main (version : String) (generateClient : Config → Service → List Line)
    (cfg : Config) (files : List PluginFile) : List GeneratedFile :=
  mainLoop version generateClient cfg files []

/-- The handler slot a line of the Server-Type declares: `MHandler grpctransport.Handler`. -/
def declaredSlot : Line → Option String
  | .sprintf f args =>
    if f = "\t\t%sHandler grpctransport.Handler" then
      match args with
      | [m] => some m
      | _ => none
    else none
  | _ => none

/-- The handler slot a line of a pipeline builder assigns:
`s.MHandler = grpctransport.NewServer(...)`. -/
def assignedSlot (l : Line) : Option String :=
  match stepOf l with
  | some (.newServer slot _ _ _) => some slot
  | _ => none

/-- The handler slot a line of a dispatch method reads: `s.MHandler.ServeGRPC(ctx, req)`. -/
def readSlot : Line → Option String
  | .sprintf f args =>
    if f = "\t_, response, err := s.%sHandler.ServeGRPC(ctx, req)" then
      match args with
      | [m] => some m
      | _ => none
    else none
  | _ => none

/-- The entry is the import line of the package `trace`. -/
def Line.isTraceImport (l : Line) : Bool :=
  l = .lit "\ttrace \"go.opentelemetry.io/otel/trace\""

/-- The entry is one of the lines the telemetry switch governs: the `trace` import, the
telemetry hook of a builder, the telemetry wrap of a builder. -/
def Line.isTelemetryOnly (l : Line) : Bool :=
  l.isTraceImport || l.extractsTelemetry || l.appliesTelemetry

/-- The two lines a pipeline builder has only with telemetry on: the telemetry hook and
the telemetry wrap of the method. -/
def telemetryLines (m : Method) : List Line :=
  [ .sprintf "\tops = append(ops, grpctransport.ServerBefore(tracing.GRPCToContext(s.tp, \"%s\", s.logger)))"
      [m.fullName],
    .sprintf "\t%sEndpoint = tracing.EndpointMiddleware(\"%s\")(%sEndpoint)"
      [m.goName, m.fullName, m.goName] ]

/-- The lines `generate` appends for one service when client generation is off. -/
def serverBlock (cfg : Config) (s : Service) : List Line :=
  if cfg.withServer then generateForService s ++ generateServer cfg s else []

/-- The characters of a Go identifier. -/
def isIdentChar (c : Char) : Bool :=
  c.isAlphanum || c = '_'

/-- The text starts with the qualifier `pkg.`. -/
def qualifierAt (pkg : List Char) (cs : List Char) : Bool :=
  (pkg ++ ['.']).isPrefixOf cs

/-- The text has the qualifier `pkg.` at a position where an identifier can start: at
the start of the text (`boundary` set) or after a character that is not an identifier
character. -/
def refersFrom (pkg : List Char) : Bool → List Char → Bool
  | _, [] => false
  | boundary, c :: cs =>
    (boundary && qualifierAt pkg (c :: cs)) || refersFrom pkg (!isIdentChar c) cs

/-- The fixed text of the entry references the package alias. -/
def Line.refersTo (pkg : String) (l : Line) : Bool :=
  refersFrom pkg.data true l.format.data

/-- The alias an import line declares: the identifier between the tab and the quoted
path of a line `alias "path"`. -/
def importedAlias : Line → Option String
  | .lit s =>
    match s.data with
    | '\t' :: cs =>
      if (cs.takeWhile isIdentChar) ≠ []
          ∧ (cs.dropWhile isIdentChar).take 2 = [' ', '\x22'] then
        some ⟨cs.takeWhile isIdentChar⟩
      else none
    | _ => none
  | _ => none

/-- The package aliases the generator writes. -/
def knownAliases : List String :=
  ["context", "endpoint", "grpctransport", "log", "stdopentracing", "opentracing",
   "tracing", "trace", "grpc"]

/-- The aliases the import block declares. -/
def importedAliases (cfg : Config) : List String :=
  (writeImport cfg).filterMap importedAlias

/-- The aliases, among the known ones, that some entry of the emitted code references. -/
def referencedAliases (code : List Line) : List String :=
  knownAliases.filter fun a => code.any (Line.refersTo a)

/-- The names of the four package-level functions emitted for a method. -/
def methodNames (m : String) : List String :=
  ["make" ++ m ++ "Endpoint", "decode" ++ m ++ "Request", "encode" ++ m ++ "Response",
   "Make" ++ m ++ "Handler"]

/-- The package-level identifier a declaration declares; the methods of the Server-Type
declare none. -/
def Decl.topLevelName : Decl → Option String
  | .adapter m _ => some ("make" ++ m ++ "Endpoint")
  | .decoder m => some ("decode" ++ m ++ "Request")
  | .encoder m => some ("encode" ++ m ++ "Response")
  | .handlerCtor m _ => some ("Make" ++ m ++ "Handler")
  | .serverType s => some s
  | .newServerType s => some ("New" ++ s)
  | _ => none

/-- The package-level identifiers a generated unit declares, in order. -/
def GeneratedFile.topLevelNames (g : GeneratedFile) : List String :=
  g.decls.filterMap Decl.topLevelName

/-- A file with two services that both have a method `Get`. -/
def twoGetFile : File :=
  { generatedFilenamePrefix := "store/store", goImportPath := "example.com/store",
    goPackageName := "store",
    services :=
      [ { goName := "Users",
          methods := [ { goName := "Get", fullName := "store.Users.Get",
                         inputGoName := "GetUserRequest", outputGoName := "User",
                         isStreamingServer := false, isStreamingClient := false } ] },
        { goName := "Orders",
          methods := [ { goName := "Get", fullName := "store.Orders.Get",
                         inputGoName := "GetOrderRequest", outputGoName := "Order",
                         isStreamingServer := false, isStreamingClient := false } ] } ] }

/-! ## Lemmas on the method loop -/

@[simp] theorem Service.dropStreaming_goName (s : Service) :
    s.dropStreaming.goName = s.goName := rfl

theorem flatMap_guard_filter (ms : List Method) (body : Method → List Line) :
    (ms.filter fun m => !m.isStreaming).flatMap (fun m => if m.isStreaming then [] else body m)
      = ms.flatMap fun m => if m.isStreaming then [] else body m := by
  induction ms with
  | nil => rfl
  | cons m ms ih =>
    cases h : m.isStreaming <;> simp [List.filter_cons, h, ih]

theorem forUnary_dropStreaming (s : Service) (body : Method → List Line) :
    forUnary s.dropStreaming body = forUnary s body :=
  flatMap_guard_filter s.methods body

theorem forUnary_eq_unary (s : Service) (body : Method → List Line) :
    forUnary s body = s.unary.flatMap body := by
  unfold forUnary Service.unary
  induction s.methods with
  | nil => rfl
  | cons m ms ih =>
    cases h : m.isStreaming <;> simp [List.filter_cons, h, ih]

theorem generateForService_dropStreaming (s : Service) :
    generateForService s.dropStreaming = generateForService s := by
  unfold generateForService
  rw [forUnary_dropStreaming]
  rfl

theorem generateServer_dropStreaming (cfg : Config) (s : Service) :
    generateServer cfg s.dropStreaming = generateServer cfg s := by
  unfold generateServer generateBuild
  simp only [forUnary_dropStreaming]
  rfl

theorem generateService_dropStreaming (generateClient : Config → Service → List Line)
    (server otel : Bool) (s : Service) :
    generateService generateClient ⟨server, false, otel⟩ s.dropStreaming
      = generateService generateClient ⟨server, false, otel⟩ s := by
  simp [generateService, generateForService_dropStreaming, generateServer_dropStreaming]

/-! ## The streaming filter -/

/-- C1: with client generation off, `generate` emits for a file exactly what it emits for
the same file with every streaming method removed from each service, and a method passes
the loop guard iff neither of its streaming flags is set. -/
theorem streaming_filter_total (version : String)
    (generateClient : Config → Service → List Line) (server otel : Bool) (file : File) :
    generate version generateClient ⟨server, false, otel⟩ file
        = generate version generateClient ⟨server, false, otel⟩ file.dropStreaming
      ∧ ∀ (n : String) (m : Method) (body : Method → List Line),
          forUnary ⟨n, [m]⟩ body
            = if m.isStreamingServer = false ∧ m.isStreamingClient = false then body m
              else [] := by
  constructor
  · have h : ∀ ss : List Service,
        (ss.map Service.dropStreaming).flatMap
            (generateService generateClient ⟨server, false, otel⟩)
          = ss.flatMap (generateService generateClient ⟨server, false, otel⟩) := by
      intro ss
      induction ss with
      | nil => rfl
      | cons s ss ih =>
        simp only [List.map_cons, List.flatMap_cons, ih, generateService_dropStreaming]
    simp only [generate, File.dropStreaming, h]
  · intro n m body
    cases hs : m.isStreamingServer <;> cases hc : m.isStreamingClient <;>
      simp [forUnary, Method.isStreaming, hs, hc]

/-! ## The pipeline builder -/

/-- C2: the steps of a pipeline builder are, in this order, the binding of the base
adapter, the tracing wrap and hook, the middleware loop, the telemetry hook and wrap when
telemetry is on, the option loop, and the store of `grpctransport.NewServer(...)` in the
handler slot; after that store the builder has only its closing brace.  Line by line the
builder is its header, the base binding and the declaration of `ops`; the tracing wrap and
hook between the guard `if s.tracer != nil` and its closing brace; the middleware wrap as
the one statement between the header of the range over `s.middlewares` and its closing
brace; the telemetry hook and wrap when telemetry is on; the option append as the one
statement between the header of the range over `s.options` and its closing brace; the
store of `NewServer`; the closing brace.  It has no other line. -/
theorem pipeline_nesting_order (cfg : Config) (s : Service) (m : Method) :
    (generateBuildMethod cfg s m).filterMap stepOf
        = [ .base m.goName m.goName,
            .traceWrap m.goName m.fullName m.goName,
            .traceHook m.fullName,
            .middlewareLoop,
            .middlewareWrap m.goName m.goName ]
          ++ (if cfg.withOTEL then
                [ .otelHook m.fullName, .otelWrap m.goName m.fullName m.goName ]
              else [])
          ++ [ .optionLoop,
               .optionAppend m.fullName,
               .newServer m.goName m.goName m.goName m.goName ]
      ∧ (∃ pre, generateBuildMethod cfg s m
          = pre ++ [ .sprintf "\ts.%sHandler = grpctransport.NewServer(%sEndpoint, decode%sRequest, encode%sResponse, ops...)"
                       [m.goName, m.goName, m.goName, m.goName],
                     .lit "\x7d" ]
          ∧ (∀ l ∈ pre, ∀ a b c d, stepOf l ≠ some (.newServer a b c d)))
      ∧ generateBuildMethod cfg s m
        = [ .sprintf "func (s *%s) build%s() \x7b" [s.goName, m.goName],
            .sprintf "\t%sEndpoint := make%sEndpoint(s.service)" [m.goName, m.goName],
            .lit "\tvar ops []grpctransport.ServerOption" ]
          ++ [ .lit "\tif s.tracer != nil \x7b",
               .sprintf "\t\t%sEndpoint = opentracing.TraceServer(s.tracer, \"%s\")(%sEndpoint)"
                 [m.goName, m.fullName, m.goName],
               .sprintf "\t\tops = append(ops, grpctransport.ServerBefore(opentracing.GRPCToContext(s.tracer, \"%s\", s.logger)))"
                 [m.fullName],
               .lit "\x7d" ]
          ++ [ .sprintf "\tfor _, middleware := range s.middlewares \x7b" [],
               .sprintf "\t\t%sEndpoint = middleware(%sEndpoint)" [m.goName, m.goName],
               .lit "\t\x7d" ]
          ++ (if cfg.withOTEL then
                [ .sprintf "\tops = append(ops, grpctransport.ServerBefore(tracing.GRPCToContext(s.tp, \"%s\", s.logger)))"
                    [m.fullName],
                  .sprintf "\t%sEndpoint = tracing.EndpointMiddleware(\"%s\")(%sEndpoint)"
                    [m.goName, m.fullName, m.goName] ]
              else [])
          ++ [ .lit "\tfor _, option := range s.options \x7b",
               .sprintf "\t\tops = append(ops, option(\"%s\"))" [m.fullName],
               .lit "\t\x7d" ]
          ++ [ .sprintf "\ts.%sHandler = grpctransport.NewServer(%sEndpoint, decode%sRequest, encode%sResponse, ops...)"
                 [m.goName, m.goName, m.goName, m.goName],
               .lit "\x7d" ] := by
  refine ⟨?_, ?_, ?_⟩
  · cases h : cfg.withOTEL <;> simp [generateBuildMethod, stepOf, h]
  · refine ⟨(generateBuildMethod cfg s m).take ((generateBuildMethod cfg s m).length - 2), ?_, ?_⟩
    · cases h : cfg.withOTEL <;> simp [generateBuildMethod, h]
    · cases h : cfg.withOTEL <;> simp [generateBuildMethod, stepOf, h]
  · cases h : cfg.withOTEL <;> simp [generateBuildMethod, h]

/-- C3 (as stated, refuted): the builder emitted for `Greeter.SayHello` under server on,
client off, telemetry off has a line that applies the tracing decorator
`opentracing.TraceServer` to the endpoint. -/
theorem greeter_builder_applies_tracing :
    ∃ l ∈ generateBuildMethod ⟨true, false, false⟩ greeter sayHello,
      l.appliesTracing = true
        ∧ l.render = "\t\tSayHelloEndpoint = opentracing.TraceServer(s.tracer, \"helloworld.Greeter.SayHello\")(SayHelloEndpoint)" := by
  refine ⟨.sprintf "\t\t%sEndpoint = opentracing.TraceServer(s.tracer, \"%s\")(%sEndpoint)"
      ["SayHello", "helloworld.Greeter.SayHello", "SayHello"], ?_, ?_, ?_⟩
  · simp [generateBuildMethod, sayHello]
  · rfl
  · rfl

/-- C3 (amended): with telemetry off no line of a builder applies the telemetry decorator
or registers the telemetry hook, and exactly one line applies the tracing decorator; that
line stands directly under the run-time guard `if s.tracer != nil`. -/
theorem builder_without_telemetry (server client : Bool) (s : Service) (m : Method) :
    (∀ l ∈ generateBuildMethod ⟨server, client, false⟩ s m,
        l.appliesTelemetry = false ∧ l.extractsTelemetry = false)
      ∧ (generateBuildMethod ⟨server, client, false⟩ s m).countP Line.appliesTracing = 1
      ∧ ∃ pre post, generateBuildMethod ⟨server, client, false⟩ s m
          = pre ++ [ .lit "\tif s.tracer != nil \x7b",
                     .sprintf "\t\t%sEndpoint = opentracing.TraceServer(s.tracer, \"%s\")(%sEndpoint)"
                       [m.goName, m.fullName, m.goName] ] ++ post := by
  refine ⟨?_, ?_, ?_⟩
  · simp [generateBuildMethod, Line.appliesTelemetry, Line.extractsTelemetry, stepOf]
  · simp [generateBuildMethod, Line.appliesTracing, stepOf, List.countP_cons]
  · refine ⟨(generateBuildMethod ⟨server, client, false⟩ s m).take 3,
      (generateBuildMethod ⟨server, client, false⟩ s m).drop 5, ?_⟩
    simp [generateBuildMethod]

/-! ## The declarations of a service block -/

theorem filterMap_flatMap_eq {α β γ : Type} (f : β → Option γ) (g : α → List β)
    (l : List α) :
    (l.flatMap g).filterMap f = l.flatMap fun a => (g a).filterMap f := by
  induction l with
  | nil => rfl
  | cons a l ih => simp [List.flatMap_cons, List.filterMap_append, ih]

theorem flatMap_singleton_eq_map {α β : Type} (h : α → β) (l : List α) :
    (l.flatMap fun a => [h a]) = l.map h := by
  induction l with
  | nil => rfl
  | cons a l ih => simp [List.flatMap_cons, ih]

theorem flatMap_nil_eq {α β : Type} (l : List α) :
    (l.flatMap fun _ => ([] : List β)) = [] := by
  induction l with
  | nil => rfl
  | cons a l ih => simp [List.flatMap_cons, ih]

theorem filterMap_forUnary {γ : Type} (f : Line → Option γ) (s : Service)
    (body : Method → List Line) :
    (forUnary s body).filterMap f = s.unary.flatMap fun m => (body m).filterMap f := by
  rw [forUnary_eq_unary, filterMap_flatMap_eq]

theorem generateForService_decls (s : Service) :
    (generateForService s).filterMap declOf
      = s.unary.flatMap fun m =>
          [ Decl.adapter m.goName s.goName, Decl.decoder m.goName, Decl.encoder m.goName,
            Decl.handlerCtor m.goName s.goName ] := by
  unfold generateForService
  rw [filterMap_forUnary]
  simp [generateGokitEndpoint, generateEncoderDecoder, generateHandler, declOf]

theorem generateServer_decls (cfg : Config) (s : Service) :
    (generateServer cfg s).filterMap declOf
      = [ Decl.serverType s.goName, Decl.newServerType s.goName,
          Decl.withOptions s.goName, Decl.withMiddlewares s.goName,
          Decl.withTracing s.goName, Decl.withTracerProvider s.goName,
          Decl.build s.goName, Decl.registerService s.goName ]
        ++ s.unary.map (fun m => Decl.builder s.goName m.goName)
        ++ s.unary.map (fun m => Decl.dispatch s.goName m.goName) := by
  have hb : ∀ m, (generateBuildMethod cfg s m).filterMap declOf
      = [Decl.builder s.goName m.goName] := by
    intro m
    cases h : cfg.withOTEL <;> simp [generateBuildMethod, declOf, h]
  have hd : ∀ m, (generateDispatch s m).filterMap declOf
      = [Decl.dispatch s.goName m.goName] := by
    intro m
    simp [generateDispatch, declOf]
  unfold generateServer generateBuild
  simp only [List.filterMap_append, filterMap_forUnary, hb, hd, flatMap_singleton_eq_map]
  simp [generateWithOptions, generateWithMiddlewares, generateWithTracing,
    generateServerWithTracerProvider, generateRegisterService, declOf, flatMap_nil_eq]

theorem serverDecls_eq (cfg : Config) (s : Service) :
    serverDecls cfg s
      = (s.unary.flatMap fun m =>
          [ Decl.adapter m.goName s.goName, Decl.decoder m.goName, Decl.encoder m.goName,
            Decl.handlerCtor m.goName s.goName ])
        ++ [ Decl.serverType s.goName, Decl.newServerType s.goName,
             Decl.withOptions s.goName, Decl.withMiddlewares s.goName,
             Decl.withTracing s.goName, Decl.withTracerProvider s.goName,
             Decl.build s.goName, Decl.registerService s.goName ]
        ++ s.unary.map (fun m => Decl.builder s.goName m.goName)
        ++ s.unary.map (fun m => Decl.dispatch s.goName m.goName) := by
  unfold serverDecls
  rw [List.filterMap_append, generateForService_decls, generateServer_decls]
  simp [List.append_assoc]

/-- C4 (as stated, refuted): in the block emitted for `Greeter` under the default
configuration the registration function is declared before the pipeline builder and the
dispatch method of `SayHello`, and it is not the last declaration of the block. -/
theorem greeter_register_before_builders :
    (serverDecls Config.default greeter).indexOf (.registerService "Greeter")
        < (serverDecls Config.default greeter).indexOf (.builder "Greeter" "SayHello")
      ∧ (serverDecls Config.default greeter).indexOf (.registerService "Greeter")
        < (serverDecls Config.default greeter).indexOf (.dispatch "Greeter" "SayHello")
      ∧ (serverDecls Config.default greeter).getLast?
        = some (.dispatch "Greeter" "SayHello") := by
  decide

/-- C4 (amended): the declarations of a service block are, in this order, the request
adapter, decoder, encoder and transport-handler constructor of each unary method, the
Server-Type and its constructor, the four setters, the `Build` aggregator, the
registration function, the pipeline builders of the unary methods, and last their
dispatch methods. -/
theorem server_emitters_order (cfg : Config) (s : Service) :
    serverDecls cfg s
      = (s.unary.flatMap fun m =>
          [ Decl.adapter m.goName s.goName, Decl.decoder m.goName, Decl.encoder m.goName,
            Decl.handlerCtor m.goName s.goName ])
        ++ [ Decl.serverType s.goName, Decl.newServerType s.goName,
             Decl.withOptions s.goName, Decl.withMiddlewares s.goName,
             Decl.withTracing s.goName, Decl.withTracerProvider s.goName,
             Decl.build s.goName, Decl.registerService s.goName ]
        ++ s.unary.map (fun m => Decl.builder s.goName m.goName)
        ++ s.unary.map (fun m => Decl.dispatch s.goName m.goName) :=
  serverDecls_eq cfg s

theorem tracerProvider_setter_always (cfg : Config) (s : Service) :
    Line.sprintf "func (s *%s) WithTracerProvider(tp trace.TracerProvider) \x7b" [s.goName]
        ∈ generateServer cfg s
      ∧ Decl.withTracerProvider s.goName ∈ (generateServer cfg s).filterMap declOf := by
  refine ⟨?_, ?_⟩
  · simp [generateServer, generateServerWithTracerProvider]
  · rw [generateServer_decls]
    simp

/-- C5 (the code at the failing input): for the service `Greeter` under server on, client
off, telemetry off the generated unit declares the setter `WithTracerProvider`, although
telemetry is off and the import block of the same unit does not import the package
`trace` that the signature of the setter names. -/
theorem greeter_tracer_provider_setter_without_telemetry :
    Decl.withTracerProvider "Greeter"
        ∈ (generate "v1" (fun _ _ => []) ⟨true, false, false⟩ helloFile).decls
      ∧ "func (s *Greeter) WithTracerProvider(tp trace.TracerProvider) \x7b"
        ∈ (generate "v1" (fun _ _ => []) ⟨true, false, false⟩ helloFile).lines.map Line.render
      ∧ "\ttrace \"go.opentelemetry.io/otel/trace\""
        ∉ (generate "v1" (fun _ _ => []) ⟨true, false, false⟩ helloFile).lines.map Line.render := by
  decide

/-- C6: with telemetry on a pipeline builder has exactly one telemetry
context-extraction line and exactly one telemetry wrap line, the extraction line directly
before the wrap line, both directly after the middleware loop and directly before the
option-factory loop; with telemetry off it has neither. -/
theorem telemetry_lines_in_builder (server client : Bool) (s : Service) (m : Method) :
    (∃ pre post,
        generateBuildMethod ⟨server, client, true⟩ s m
          = pre
            ++ [ .sprintf "\tfor _, middleware := range s.middlewares \x7b" [],
                 .sprintf "\t\t%sEndpoint = middleware(%sEndpoint)" [m.goName, m.goName],
                 .lit "\t\x7d",
                 .sprintf "\tops = append(ops, grpctransport.ServerBefore(tracing.GRPCToContext(s.tp, \"%s\", s.logger)))"
                   [m.fullName],
                 .sprintf "\t%sEndpoint = tracing.EndpointMiddleware(\"%s\")(%sEndpoint)"
                   [m.goName, m.fullName, m.goName],
                 .lit "\tfor _, option := range s.options \x7b",
                 .sprintf "\t\tops = append(ops, option(\"%s\"))" [m.fullName],
                 .lit "\t\x7d" ]
            ++ post
          ∧ ∀ l ∈ pre ++ post, l.extractsTelemetry = false ∧ l.appliesTelemetry = false)
      ∧ (generateBuildMethod ⟨server, client, true⟩ s m).countP Line.extractsTelemetry = 1
      ∧ (generateBuildMethod ⟨server, client, true⟩ s m).countP Line.appliesTelemetry = 1
      ∧ ∀ l ∈ generateBuildMethod ⟨server, client, false⟩ s m,
          l.extractsTelemetry = false ∧ l.appliesTelemetry = false := by
  refine ⟨⟨(generateBuildMethod ⟨server, client, true⟩ s m).take 7,
      (generateBuildMethod ⟨server, client, true⟩ s m).drop 15, ?_, ?_⟩, ?_, ?_, ?_⟩
  · simp [generateBuildMethod]
  · simp [generateBuildMethod, Line.extractsTelemetry, Line.appliesTelemetry, stepOf]
  · simp [generateBuildMethod, Line.extractsTelemetry, stepOf, List.countP_cons]
  · simp [generateBuildMethod, Line.appliesTelemetry, stepOf, List.countP_cons]
  · simp [generateBuildMethod, Line.extractsTelemetry, Line.appliesTelemetry, stepOf]

/-! ## Counting the declarations of a generated unit -/

theorem countP_flatMap_of_const {α β : Type} (p : β → Bool) (g : α → List β) (k : Nat)
    (h : ∀ a, (g a).countP p = k) (l : List α) :
    (l.flatMap g).countP p = k * l.length := by
  induction l with
  | nil => rfl
  | cons a l ih =>
    simp only [List.flatMap_cons, List.countP_append, h, ih, List.length_cons]
    ring

theorem countP_map_of_false {α β : Type} (p : β → Bool) (f : α → β)
    (h : ∀ a, p (f a) = false) (l : List α) :
    (l.map f).countP p = 0 := by
  induction l with
  | nil => rfl
  | cons a l ih => simp [List.countP_cons, h, ih]

theorem countP_flatMap_sum {α β : Type} (p : β → Bool) (g : α → List β) (l : List α) :
    (l.flatMap g).countP p = (l.map fun a => (g a).countP p).sum := by
  induction l with
  | nil => rfl
  | cons a l ih => simp [List.flatMap_cons, List.countP_append, ih]

theorem unary_eq_methods (s : Service) (h : ∀ m ∈ s.methods, m.isStreaming = false) :
    s.unary = s.methods := by
  unfold Service.unary
  rw [List.filter_eq_self]
  intro m hm
  simp [h m hm]

theorem generate_decls_server_only (version : String)
    (generateClient : Config → Service → List Line) (otel : Bool) (file : File) :
    (generate version generateClient ⟨true, false, otel⟩ file).decls
      = file.services.flatMap (serverDecls ⟨true, false, otel⟩) := by
  have hi : (writeImport ⟨true, false, otel⟩).filterMap declOf = [] := by
    cases otel <;> simp [writeImport, declOf]
  have hs : ∀ s, (generateService generateClient ⟨true, false, otel⟩ s).filterMap declOf
      = serverDecls ⟨true, false, otel⟩ s := by
    intro s
    simp [generateService, serverDecls]
  unfold GeneratedFile.decls generate
  simp only [List.filterMap_append, hi, filterMap_flatMap_eq, hs]
  simp [declOf]

theorem serverDecls_counts (cfg : Config) (s : Service) :
    (serverDecls cfg s).countP Decl.isAdapter = s.unary.length
      ∧ (serverDecls cfg s).countP Decl.isDecoder = s.unary.length
      ∧ (serverDecls cfg s).countP Decl.isEncoder = s.unary.length
      ∧ (serverDecls cfg s).countP Decl.isHandlerCtor = s.unary.length
      ∧ (serverDecls cfg s).countP Decl.isServerType = 1 := by
  rw [serverDecls_eq]
  simp only [List.countP_append]
  refine ⟨?_, ?_, ?_, ?_, ?_⟩
  · rw [countP_flatMap_of_const _ _ 1 (by intro m; rfl),
      countP_map_of_false _ _ (by intro m; rfl), countP_map_of_false _ _ (by intro m; rfl)]
    simp [List.countP_cons, Decl.isAdapter]
  · rw [countP_flatMap_of_const _ _ 1 (by intro m; rfl),
      countP_map_of_false _ _ (by intro m; rfl), countP_map_of_false _ _ (by intro m; rfl)]
    simp [List.countP_cons, Decl.isDecoder]
  · rw [countP_flatMap_of_const _ _ 1 (by intro m; rfl),
      countP_map_of_false _ _ (by intro m; rfl), countP_map_of_false _ _ (by intro m; rfl)]
    simp [List.countP_cons, Decl.isEncoder]
  · rw [countP_flatMap_of_const _ _ 1 (by intro m; rfl),
      countP_map_of_false _ _ (by intro m; rfl), countP_map_of_false _ _ (by intro m; rfl)]
    simp [List.countP_cons, Decl.isHandlerCtor]
  · rw [countP_flatMap_of_const _ _ 0 (by intro m; rfl),
      countP_map_of_false _ _ (by intro m; rfl), countP_map_of_false _ _ (by intro m; rfl)]
    simp [List.countP_cons, Decl.isServerType]

theorem sum_map_congr {α : Type} (f g : α → Nat) (l : List α) (h : ∀ a ∈ l, f a = g a) :
    (l.map f).sum = (l.map g).sum := by
  induction l with
  | nil => rfl
  | cons a l ih =>
    simp only [List.map_cons, List.sum_cons]
    rw [h a (List.mem_cons_self a l), ih fun b hb => h b (List.mem_cons_of_mem a hb)]

theorem sum_map_one {α : Type} (l : List α) : (l.map fun _ => 1).sum = l.length := by
  induction l with
  | nil => rfl
  | cons a l ih => simp [ih]; omega

/-- C7: under the default configuration (server on, client off, telemetry off) a file
whose methods are all unary yields exactly one request adapter, one decoder, one encoder
and one transport-handler constructor per method, each named after its method, and
exactly one Server-Type declaration per service. -/
theorem artifact_counts_default (version : String)
    (generateClient : Config → Service → List Line) (file : File)
    (h : ∀ s ∈ file.services, ∀ m ∈ s.methods, m.isStreaming = false) :
    (generate version generateClient Config.default file).decls.countP Decl.isAdapter
        = (file.services.map fun s => s.methods.length).sum
      ∧ (generate version generateClient Config.default file).decls.countP Decl.isDecoder
        = (file.services.map fun s => s.methods.length).sum
      ∧ (generate version generateClient Config.default file).decls.countP Decl.isEncoder
        = (file.services.map fun s => s.methods.length).sum
      ∧ (generate version generateClient Config.default file).decls.countP Decl.isHandlerCtor
        = (file.services.map fun s => s.methods.length).sum
      ∧ (generate version generateClient Config.default file).decls.countP Decl.isServerType
        = file.services.length
      ∧ ∀ s ∈ file.services,
          Decl.serverType s.goName
              ∈ (generate version generateClient Config.default file).decls
            ∧ ∀ m ∈ s.methods,
              Decl.adapter m.goName s.goName
                  ∈ (generate version generateClient Config.default file).decls
                ∧ Decl.decoder m.goName
                  ∈ (generate version generateClient Config.default file).decls
                ∧ Decl.encoder m.goName
                  ∈ (generate version generateClient Config.default file).decls
                ∧ Decl.handlerCtor m.goName s.goName
                  ∈ (generate version generateClient Config.default file).decls := by
  have hu : ∀ s ∈ file.services, s.unary.length = s.methods.length :=
    fun s hs => by rw [unary_eq_methods s (h s hs)]
  unfold Config.default
  rw [generate_decls_server_only]
  simp only [countP_flatMap_sum]
  refine ⟨?_, ?_, ?_, ?_, ?_, ?_⟩
  · exact sum_map_congr _ _ _ fun s hs => by rw [(serverDecls_counts _ s).1, hu s hs]
  · exact sum_map_congr _ _ _ fun s hs => by rw [(serverDecls_counts _ s).2.1, hu s hs]
  · exact sum_map_congr _ _ _ fun s hs => by rw [(serverDecls_counts _ s).2.2.1, hu s hs]
  · exact sum_map_congr _ _ _ fun s hs => by rw [(serverDecls_counts _ s).2.2.2.1, hu s hs]
  · rw [← sum_map_one file.services]
    exact sum_map_congr _ _ _ fun s _ => (serverDecls_counts _ s).2.2.2.2
  · intro s hs
    refine ⟨?_, ?_⟩
    · refine List.mem_flatMap.2 ⟨s, hs, ?_⟩
      rw [serverDecls_eq]
      simp
    · intro m hm
      have hm2 : m ∈ s.unary := by rw [unary_eq_methods s (h s hs)]; exact hm
      refine ⟨?_, ?_, ?_, ?_⟩ <;>
        · refine List.mem_flatMap.2 ⟨s, hs, ?_⟩
          rw [serverDecls_eq]
          refine List.mem_append_left _ (List.mem_append_left _ (List.mem_append_left _ ?_))
          refine List.mem_flatMap.2 ⟨m, hm2, ?_⟩
          simp

/-- C7 (witness): the file with the one service `Greeter` and its one unary method. -/
theorem artifact_counts_default_witness :
    (∀ s ∈ helloFile.services, ∀ m ∈ s.methods, m.isStreaming = false)
      ∧ (generate "v1" (fun _ _ => []) Config.default helloFile).decls.countP Decl.isAdapter
        = 1 :=
  ⟨by decide, (artifact_counts_default "v1" (fun _ _ => []) helloFile (by decide)).1⟩

/-! ## The `Build` aggregator -/

/-- C8: the body of `Build` is one call `s.buildM()` per unary method, in method order,
and the builders `Build` calls are the builders the service block declares: both are the
unary methods of the service, each once and in method order. -/
theorem build_calls_every_builder (cfg : Config) (s : Service) :
    generateBuild s
        = [ Line.sprintf "func (s *%s) Build() \x7b" [s.goName] ]
          ++ s.unary.map (fun m => Line.sprintf "\ts.build%s()" [m.goName])
          ++ [ Line.lit "\x7d" ]
      ∧ (generateBuild s).filterMap calledBuilder = s.unary.map (fun m => m.goName)
      ∧ (generateServer cfg s).filterMap calledBuilder = s.unary.map (fun m => m.goName)
      ∧ (generateServer cfg s).filterMap declaredBuilder
        = s.unary.map (fun m => m.goName) := by
  have hb : generateBuild s
      = [ Line.sprintf "func (s *%s) Build() \x7b" [s.goName] ]
        ++ s.unary.map (fun m => Line.sprintf "\ts.build%s()" [m.goName])
        ++ [ Line.lit "\x7d" ] := by
    unfold generateBuild
    rw [forUnary_eq_unary, flatMap_singleton_eq_map]
  have hc : (generateBuild s).filterMap calledBuilder = s.unary.map (fun m => m.goName) := by
    unfold generateBuild
    simp only [List.filterMap_append, filterMap_forUnary]
    simp [calledBuilder, flatMap_singleton_eq_map]
  have hm : ∀ m, (generateBuildMethod cfg s m).filterMap calledBuilder = [] := by
    intro m
    cases h : cfg.withOTEL <;> simp [generateBuildMethod, calledBuilder, h]
  have hd : ∀ m, (generateBuildMethod cfg s m).filterMap declaredBuilder = [m.goName] := by
    intro m
    cases h : cfg.withOTEL <;> simp [generateBuildMethod, declaredBuilder, declOf, h]
  refine ⟨hb, hc, ?_, ?_⟩
  · unfold generateServer
    simp only [List.filterMap_append, hc, filterMap_forUnary, hm, flatMap_nil_eq]
    simp [generateWithOptions, generateWithMiddlewares, generateWithTracing,
      generateServerWithTracerProvider, generateRegisterService, generateDispatch,
      calledBuilder, flatMap_nil_eq]
  · unfold generateServer generateBuild
    simp only [List.filterMap_append, filterMap_forUnary, hd, flatMap_singleton_eq_map]
    simp [generateWithOptions, generateWithMiddlewares, generateWithTracing,
      generateServerWithTracerProvider, generateRegisterService, generateDispatch,
      declaredBuilder, declOf, flatMap_nil_eq]

/-! ## The client switch -/

/-- C9: the lines of the server-side emitters (`generateForService` followed by
`generateServer`) are the same whether client generation is on or off, as entries and as
text, and in `generate` the block of a service is these lines followed by what the client
emitter appends. -/
theorem client_switch_noninterference (server otel : Bool) (s : Service)
    (generateClient : Config → Service → List Line) :
    generateForService s ++ generateServer ⟨server, true, otel⟩ s
        = generateForService s ++ generateServer ⟨server, false, otel⟩ s
      ∧ (generateForService s ++ generateServer ⟨server, true, otel⟩ s).map Line.render
        = (generateForService s ++ generateServer ⟨server, false, otel⟩ s).map Line.render
      ∧ ∀ client : Bool,
          generateService generateClient ⟨server, client, otel⟩ s
            = (if server then
                generateForService s ++ generateServer ⟨server, false, otel⟩ s
               else [])
              ++ (if client then generateClient ⟨server, client, otel⟩ s else []) := by
  have h : ∀ client : Bool,
      generateServer ⟨server, client, otel⟩ s = generateServer ⟨server, false, otel⟩ s :=
    fun _ => rfl
  refine ⟨by rw [h true], by rw [h true], ?_⟩
  intro client
  simp only [generateService, h client]

/-! ## The tags of a pipeline builder -/

/-- C10: every string literal a pipeline builder writes is the fully-qualified name of
its method: three literals with telemetry off (tracing decorator, tracing hook, option
factory argument), five with telemetry on (telemetry hook and decorator in addition), and
every double quote of the fixed text of a line encloses one of them. -/
theorem builder_tags_are_full_names (cfg : Config) (s : Service) (m : Method) :
    (∀ l ∈ generateBuildMethod cfg s m, ∀ t ∈ l.quotedArgs, t = m.fullName)
      ∧ (generateBuildMethod cfg s m).flatMap Line.quotedArgs
        = List.replicate (if cfg.withOTEL then 5 else 3) m.fullName
      ∧ (generateBuildMethod cfg s m).map Line.quoteCount
        = (generateBuildMethod cfg s m).map fun l => 2 * l.quotedArgs.length := by
  have hq : (generateBuildMethod cfg s m).flatMap Line.quotedArgs
      = List.replicate (if cfg.withOTEL then 5 else 3) m.fullName := by
    cases cfg with
    | mk a b c => cases c <;> rfl
  refine ⟨?_, hq, ?_⟩
  · intro l hl t ht
    have : t ∈ (generateBuildMethod cfg s m).flatMap Line.quotedArgs :=
      List.mem_flatMap.2 ⟨l, hl, ht⟩
    rw [hq] at this
    exact List.eq_of_mem_replicate this
  · cases cfg with
    | mk a b c => cases c <;> rfl

/-! ## The generated unit as a whole -/

theorem render_version_line (version : String) :
    (Line.sprintf "// protoc-gen-gokit-endpoint %s" [version]).render
      = "// protoc-gen-gokit-endpoint " ++ version := by
  apply String.ext
  simp [Line.render, sprintf, sprintfAux]

/-- C11: with server and client generation off, `generate` returns, for every file, the
unit made of the three header lines, the package clause between two empty lines and
the import block, and nothing else: the services of the file contribute no line. -/
theorem headers_only_when_both_off (version : String)
    (generateClient : Config → Service → List Line) (otel : Bool) (file : File) :
    (generate version generateClient ⟨false, false, otel⟩ file).lines
        = [ .lit "// Code generated by protoc-gen-gokit-endpoint. DO NOT EDIT.",
            .lit "// versions:",
            .sprintf "// protoc-gen-gokit-endpoint %s" [version],
            .cat [],
            .cat ["package ", file.goPackageName],
            .cat [] ]
          ++ writeImport ⟨false, false, otel⟩
      ∧ (generate version generateClient ⟨false, false, otel⟩ file).lines.length
        = (if otel then 16 else 15)
      ∧ (generate version generateClient ⟨false, false, otel⟩ file).lines
        = (generate version generateClient ⟨false, false, otel⟩
            { file with services := [] }).lines := by
  have h : file.services.flatMap (generateService generateClient ⟨false, false, otel⟩)
      = [] := by
    induction file.services with
    | nil => rfl
    | cons s ss ih => simp [List.flatMap_cons, generateService, ih]
  refine ⟨?_, ?_, ?_⟩
  · simp [generate, h]
  · cases otel <;> simp [generate, h, writeImport]
  · simp [generate, h]

/-- C12: for every file and configuration the unit starts with the three header lines,
whose text is the do-not-edit banner, `// versions:` and `// protoc-gen-gokit-endpoint `
followed by the version constant; the package clause, the import block and the blocks of
the services all come after them. -/
theorem header_contract (version : String)
    (generateClient : Config → Service → List Line) (cfg : Config) (file : File) :
    ((generate version generateClient cfg file).lines.map Line.render).take 3
        = [ "// Code generated by protoc-gen-gokit-endpoint. DO NOT EDIT.",
            "// versions:",
            "// protoc-gen-gokit-endpoint " ++ version ]
      ∧ (generate version generateClient cfg file).lines
        = [ .lit "// Code generated by protoc-gen-gokit-endpoint. DO NOT EDIT.",
            .lit "// versions:",
            .sprintf "// protoc-gen-gokit-endpoint %s" [version] ]
          ++ [ .cat [], .cat ["package ", file.goPackageName], .cat [] ]
          ++ writeImport cfg
          ++ file.services.flatMap (generateService generateClient cfg) := by
  refine ⟨?_, ?_⟩
  · simp only [generate, List.map_append, List.map_cons, List.cons_append, List.take_succ_cons,
      List.take_zero, render_version_line]
    rfl
  · simp [generate]

/-! ## The gate of the telemetry lines -/

theorem telemetry_presence (cfg : Config) (s : Service) (m : Method) :
    (generateBuildMethod cfg s m).any Line.extractsTelemetry = cfg.withOTEL
      ∧ (generateBuildMethod cfg s m).any Line.appliesTelemetry = cfg.withOTEL := by
  cases h : cfg.withOTEL <;>
    simp [generateBuildMethod, Line.extractsTelemetry, Line.appliesTelemetry, stepOf, h]

/-- C13 (as stated, refuted): there is no configuration, service and method for which
the pipeline builder has the telemetry context-extraction hook without the telemetry
wrap, or the wrap without the hook. -/
theorem no_asymmetric_telemetry_gating :
    ¬ ∃ (cfg : Config) (s : Service) (m : Method),
        ((generateBuildMethod cfg s m).any Line.extractsTelemetry = true
            ∧ (generateBuildMethod cfg s m).any Line.appliesTelemetry = false)
          ∨ ((generateBuildMethod cfg s m).any Line.appliesTelemetry = true
            ∧ (generateBuildMethod cfg s m).any Line.extractsTelemetry = false) := by
  rintro ⟨cfg, s, m, h⟩
  have hp := telemetry_presence cfg s m
  rw [hp.1, hp.2] at h
  cases hc : cfg.withOTEL <;> simp [hc] at h

/-- C13 (amended): the telemetry hook and the telemetry wrap of a pipeline builder are
gated by the same flag: each is emitted exactly when `withOTEL` is set, so for every
configuration the builder has both lines or neither. -/
theorem telemetry_hook_and_wrap_same_gate (cfg : Config) (s : Service) (m : Method) :
    (generateBuildMethod cfg s m).any Line.extractsTelemetry = cfg.withOTEL
      ∧ (generateBuildMethod cfg s m).any Line.appliesTelemetry = cfg.withOTEL
      ∧ (generateBuildMethod cfg s m).any Line.extractsTelemetry
        = (generateBuildMethod cfg s m).any Line.appliesTelemetry := by
  have hp := telemetry_presence cfg s m
  exact ⟨hp.1, hp.2, by rw [hp.1, hp.2]⟩

/-! ## The name of the generated unit -/

theorem string_append_right_cancel (a b s : String) (h : a ++ s = b ++ s) : a = b := by
  apply String.ext
  have hd := congrArg String.data h
  simp only [String.data_append] at hd
  exact List.append_cancel_right hd

/-- C14: the generated unit is named by the generated-filename prefix of the input file
followed by `_endpoints.pb.go`; two units have the same name exactly when their input
files have the same prefix, whatever the version, the configuration and the services. -/
theorem output_naming (version : String) (generateClient : Config → Service → List Line)
    (cfg : Config) (file : File) :
    (generate version generateClient cfg file).filename
        = file.generatedFilenamePrefix ++ "_endpoints.pb.go"
      ∧ ∀ (version2 : String) (generateClient2 : Config → Service → List Line)
          (cfg2 : Config) (file2 : File),
          (generate version2 generateClient2 cfg2 file2).filename
              = (generate version generateClient cfg file).filename
            ↔ file2.generatedFilenamePrefix = file.generatedFilenamePrefix := by
  refine ⟨rfl, ?_⟩
  intro version2 generateClient2 cfg2 file2
  constructor
  · intro h
    exact string_append_right_cancel _ _ _ h
  · intro h
    simp only [generate, h]

/-! ## The run of the plugin -/

theorem mainLoop_eq (version : String) (generateClient : Config → Service → List Line)
    (cfg : Config) (files : List PluginFile) (registered : List GeneratedFile) :
    mainLoop version generateClient cfg files registered
      = registered
        ++ (files.filter fun f => f.Generate).map
            fun f => generate version generateClient cfg f.file := by
  induction files generalizing registered with
  | nil => simp [mainLoop]
  | cons f fs ih =>
    have hstep : mainLoop version generateClient cfg (f :: fs) registered
        = mainLoop version generateClient cfg fs
            (if !f.Generate then registered
             else registered ++ [generate version generateClient cfg f.file]) := rfl
    rw [hstep, ih]
    cases hg : f.Generate <;> simp [List.filter_cons, hg]

/-- C15: two invocations of `generate` on the same file under the same configuration in
one run register two equal units (same name, same lines, same text), and the unit of a
file is the same whatever files the run handles before and after it. -/
theorem generation_idempotent (version : String)
    (generateClient : Config → Service → List Line) (cfg : Config) (f : File)
    (before after : List PluginFile) :
    main version generateClient cfg [⟨true, f⟩, ⟨true, f⟩]
        = [generate version generateClient cfg f, generate version generateClient cfg f]
      ∧ main version generateClient cfg (before ++ ⟨true, f⟩ :: after)
        = main version generateClient cfg before
          ++ generate version generateClient cfg f
          :: main version generateClient cfg after
      ∧ main version generateClient cfg (before ++ ⟨false, f⟩ :: after)
        = main version generateClient cfg before
          ++ main version generateClient cfg after := by
  unfold main
  simp only [mainLoop_eq]
  refine ⟨?_, ?_, ?_⟩
  · simp
  · simp [List.filter_append, List.filter_cons]
  · simp [List.filter_append, List.filter_cons]

/-! ## The handler slots -/

/-- C16: in the block of a service the handler slots the Server-Type declares, the slots
the pipeline builders assign and the slots the dispatch methods read are each the unary
methods of the service, one per method and in method order; the declared slots are the
fields that close the `struct` of the Server-Type. -/
theorem handler_slots_consistent (cfg : Config) (s : Service) :
    (generateForService s ++ generateServer cfg s).filterMap declaredSlot
        = s.unary.map (fun m => m.goName)
      ∧ (generateForService s ++ generateServer cfg s).filterMap assignedSlot
        = s.unary.map (fun m => m.goName)
      ∧ (generateForService s ++ generateServer cfg s).filterMap readSlot
        = s.unary.map (fun m => m.goName)
      ∧ ∃ rest, generateServer cfg s
          = [ Line.sprintf "type %s struct \x7b" [s.goName],
              Line.sprintf "\tUnimplemented%sServer" [s.goName],
              Line.sprintf "\tservice %sServer" [s.goName],
              Line.lit "\toptions []func(string) grpctransport.ServerOption",
              Line.lit "\tmiddlewares []func(endpoint.Endpoint) endpoint.Endpoint",
              Line.lit "\ttracer stdopentracing.Tracer",
              Line.lit "\ttp trace.TracerProvider",
              Line.lit "\tlogger log.Logger" ]
            ++ s.unary.map (fun m => Line.sprintf "\t\t%sHandler grpctransport.Handler" [m.goName])
            ++ Line.lit "\x7d" :: rest := by
  have hb1 : ∀ m, (generateBuildMethod cfg s m).filterMap declaredSlot = [] := by
    intro m
    cases h : cfg.withOTEL <;> simp [generateBuildMethod, declaredSlot, h]
  have hb2 : ∀ m, (generateBuildMethod cfg s m).filterMap assignedSlot = [m.goName] := by
    intro m
    cases h : cfg.withOTEL <;> simp [generateBuildMethod, assignedSlot, stepOf, h]
  have hb3 : ∀ m, (generateBuildMethod cfg s m).filterMap readSlot = [] := by
    intro m
    cases h : cfg.withOTEL <;> simp [generateBuildMethod, readSlot, h]
  refine ⟨?_, ?_, ?_, ?_⟩
  · unfold generateForService generateServer generateBuild
    simp only [List.filterMap_append, filterMap_forUnary, hb1, flatMap_nil_eq]
    simp [generateGokitEndpoint, generateEncoderDecoder, generateHandler,
      generateWithOptions, generateWithMiddlewares, generateWithTracing,
      generateServerWithTracerProvider, generateRegisterService, generateDispatch,
      declaredSlot, flatMap_nil_eq, flatMap_singleton_eq_map]
  · unfold generateForService generateServer generateBuild
    simp only [List.filterMap_append, filterMap_forUnary, hb2, flatMap_singleton_eq_map]
    simp [generateGokitEndpoint, generateEncoderDecoder, generateHandler,
      generateWithOptions, generateWithMiddlewares, generateWithTracing,
      generateServerWithTracerProvider, generateRegisterService, generateDispatch,
      assignedSlot, stepOf, flatMap_nil_eq]
  · unfold generateForService generateServer generateBuild
    simp only [List.filterMap_append, filterMap_forUnary, hb3, flatMap_nil_eq]
    simp [generateGokitEndpoint, generateEncoderDecoder, generateHandler,
      generateWithOptions, generateWithMiddlewares, generateWithTracing,
      generateServerWithTracerProvider, generateRegisterService, generateDispatch,
      readSlot, flatMap_nil_eq, flatMap_singleton_eq_map]
  · unfold generateServer
    rw [forUnary_eq_unary, flatMap_singleton_eq_map]
    simp only [List.append_assoc, List.cons_append, List.nil_append]
    exact ⟨_, rfl⟩

/-! ## The telemetry switch -/

theorem filter_flatMap_eq {α β : Type} (p : β → Bool) (g : α → List β) (l : List α) :
    (l.flatMap g).filter p = l.flatMap fun a => (g a).filter p := by
  induction l with
  | nil => rfl
  | cons a l ih => simp [List.flatMap_cons, List.filter_append, ih]

theorem filter_forUnary (p : Line → Bool) (s : Service) (body : Method → List Line) :
    (forUnary s body).filter p = forUnary s fun m => (body m).filter p := by
  rw [forUnary_eq_unary, forUnary_eq_unary, filter_flatMap_eq]

theorem generateForService_filter_telemetry (s : Service) :
    (generateForService s).filter (fun l => !l.isTelemetryOnly) = generateForService s := by
  unfold generateForService
  rw [filter_forUnary]
  simp [generateGokitEndpoint, generateEncoderDecoder, generateHandler,
    Line.isTelemetryOnly, Line.isTraceImport, Line.extractsTelemetry, Line.appliesTelemetry,
    stepOf]

theorem generateBuildMethod_filter_telemetry (server client : Bool) (s : Service)
    (m : Method) :
    (generateBuildMethod ⟨server, client, true⟩ s m).filter (fun l => !l.isTelemetryOnly)
      = generateBuildMethod ⟨server, client, false⟩ s m := by
  simp [generateBuildMethod, Line.isTelemetryOnly, Line.isTraceImport,
    Line.extractsTelemetry, Line.appliesTelemetry, stepOf]

theorem generateServer_filter_telemetry (server client : Bool) (s : Service) :
    (generateServer ⟨server, client, true⟩ s).filter (fun l => !l.isTelemetryOnly)
      = generateServer ⟨server, client, false⟩ s := by
  have hd : ∀ m, (generateDispatch s m).filter (fun l => !l.isTelemetryOnly)
      = generateDispatch s m := by
    intro m
    simp [generateDispatch, Line.isTelemetryOnly, Line.isTraceImport,
      Line.extractsTelemetry, Line.appliesTelemetry, stepOf]
  unfold generateServer generateBuild
  simp only [List.filter_append, filter_forUnary, generateBuildMethod_filter_telemetry, hd]
  simp [generateWithOptions, generateWithMiddlewares, generateWithTracing,
    generateServerWithTracerProvider, generateRegisterService,
    Line.isTelemetryOnly, Line.isTraceImport, Line.extractsTelemetry, Line.appliesTelemetry,
    stepOf]

theorem generateForService_telemetry_lines (s : Service) :
    (generateForService s).filter Line.isTelemetryOnly = [] := by
  unfold generateForService
  rw [forUnary_eq_unary, filter_flatMap_eq]
  simp [generateGokitEndpoint, generateEncoderDecoder, generateHandler,
    Line.isTelemetryOnly, Line.isTraceImport, Line.extractsTelemetry, Line.appliesTelemetry,
    stepOf, flatMap_nil_eq]

theorem generateBuildMethod_telemetry_lines (server client : Bool) (s : Service)
    (m : Method) :
    (generateBuildMethod ⟨server, client, true⟩ s m).filter Line.isTelemetryOnly
      = telemetryLines m := by
  simp [generateBuildMethod, telemetryLines, Line.isTelemetryOnly, Line.isTraceImport,
    Line.extractsTelemetry, Line.appliesTelemetry, stepOf]

theorem generateServer_telemetry_lines (server client : Bool) (s : Service) :
    (generateServer ⟨server, client, true⟩ s).filter Line.isTelemetryOnly
      = s.unary.flatMap telemetryLines := by
  have hd : ∀ m, (generateDispatch s m).filter Line.isTelemetryOnly = [] := by
    intro m
    simp [generateDispatch, Line.isTelemetryOnly, Line.isTraceImport,
      Line.extractsTelemetry, Line.appliesTelemetry, stepOf]
  unfold generateServer generateBuild
  simp only [List.filter_append, forUnary_eq_unary, filter_flatMap_eq,
    generateBuildMethod_telemetry_lines, hd, flatMap_nil_eq]
  simp [generateWithOptions, generateWithMiddlewares, generateWithTracing,
    generateServerWithTracerProvider, generateRegisterService,
    Line.isTelemetryOnly, Line.isTraceImport, Line.extractsTelemetry, Line.appliesTelemetry,
    stepOf, flatMap_nil_eq]

theorem generate_telemetry_lines (version : String)
    (generateClient : Config → Service → List Line) (server : Bool) (file : File) :
    (generate version generateClient ⟨server, false, true⟩ file).lines.filter
        Line.isTelemetryOnly
      = Line.lit "\ttrace \"go.opentelemetry.io/otel/trace\""
        :: (if server then file.services.flatMap fun s => s.unary.flatMap telemetryLines
            else []) := by
  have hs : ∀ s : Service,
      (generateService generateClient ⟨server, false, true⟩ s).filter Line.isTelemetryOnly
        = if server then s.unary.flatMap telemetryLines else [] := by
    intro s
    cases server <;>
      simp [generateService, List.filter_append, generateForService_telemetry_lines,
        generateServer_telemetry_lines]
  unfold generate
  simp only [List.filter_append, filter_flatMap_eq, hs]
  cases server <;>
    simp [writeImport, Line.isTelemetryOnly, Line.isTraceImport, Line.extractsTelemetry,
      Line.appliesTelemetry, stepOf, flatMap_nil_eq]

theorem length_filter_add_length_filter_not {α : Type} (p : α → Bool) (l : List α) :
    (l.filter p).length + (l.filter fun a => !p a).length = l.length := by
  induction l with
  | nil => rfl
  | cons a l ih =>
    cases h : p a <;> simp [List.filter_cons, h] <;> omega

theorem length_flatMap_sum {α β : Type} (f : α → List β) (l : List α) :
    (l.flatMap f).length = (l.map fun a => (f a).length).sum := by
  induction l with
  | nil => rfl
  | cons a l ih => simp [List.flatMap_cons, ih]

theorem length_unary_telemetryLines (s : Service) :
    (s.unary.flatMap telemetryLines).length = 2 * s.unary.length := by
  rw [length_flatMap_sum]
  induction s.unary with
  | nil => rfl
  | cons m ms ih =>
    simp only [List.map_cons, List.sum_cons, List.length_cons, ih]
    simp [telemetryLines]
    omega

/-- C19: with client generation off, the unit generated with telemetry off is the unit
generated with telemetry on without its telemetry-only lines (the `trace` import line,
and the telemetry hook and telemetry wrap of each pipeline builder); the other lines are
the same, in the same order, and the name of the unit is the same.  The telemetry-only
lines of the unit with telemetry on are exactly the `trace` import line followed, when
server generation is on, by the hook and the wrap of each unary method of each service in
order, so the unit with telemetry on is longer by one line and two lines per builder;
each builder with telemetry on is the builder with telemetry off with the hook and the
wrap inserted at one place, and likewise the import block with the `trace` line. -/
theorem telemetry_switch_only_adds_lines (version : String)
    (generateClient : Config → Service → List Line) (server : Bool) (file : File) :
    (generate version generateClient ⟨server, false, false⟩ file).lines
        = (generate version generateClient ⟨server, false, true⟩ file).lines.filter
            (fun l => !l.isTelemetryOnly)
      ∧ (generate version generateClient ⟨server, false, false⟩ file).filename
        = (generate version generateClient ⟨server, false, true⟩ file).filename
      ∧ (∀ l ∈ (generate version generateClient ⟨server, false, false⟩ file).lines,
          l.isTelemetryOnly = false)
      ∧ (generate version generateClient ⟨server, false, true⟩ file).lines.filter
            Line.isTelemetryOnly
        = Line.lit "\ttrace \"go.opentelemetry.io/otel/trace\""
          :: (if server then file.services.flatMap fun s => s.unary.flatMap telemetryLines
              else [])
      ∧ (generate version generateClient ⟨server, false, true⟩ file).lines.length
        = (generate version generateClient ⟨server, false, false⟩ file).lines.length + 1
          + (if server then (file.services.map fun s => 2 * s.unary.length).sum else 0)
      ∧ (∀ (s : Service) (m : Method), ∃ pre post,
          generateBuildMethod ⟨server, false, true⟩ s m = pre ++ telemetryLines m ++ post
            ∧ generateBuildMethod ⟨server, false, false⟩ s m = pre ++ post)
      ∧ (∃ pre post,
          writeImport ⟨server, false, true⟩
              = pre ++ [Line.lit "\ttrace \"go.opentelemetry.io/otel/trace\""] ++ post
            ∧ writeImport ⟨server, false, false⟩ = pre ++ post) := by
  have hs : ∀ s : Service,
      (generateService generateClient ⟨server, false, true⟩ s).filter
          (fun l => !l.isTelemetryOnly)
        = generateService generateClient ⟨server, false, false⟩ s := by
    intro s
    cases server <;>
      simp [generateService, List.filter_append, generateForService_filter_telemetry,
        generateServer_filter_telemetry]
  have hl : (generate version generateClient ⟨server, false, false⟩ file).lines
      = (generate version generateClient ⟨server, false, true⟩ file).lines.filter
          (fun l => !l.isTelemetryOnly) := by
    unfold generate
    simp only [List.filter_append, filter_flatMap_eq, hs]
    simp [writeImport, Line.isTelemetryOnly, Line.isTraceImport, Line.extractsTelemetry,
      Line.appliesTelemetry, stepOf]
  have ht := generate_telemetry_lines version generateClient server file
  refine ⟨hl, rfl, ?_, ht, ?_, ?_, ?_⟩
  · intro l hmem
    rw [hl] at hmem
    simpa using (List.mem_filter.1 hmem).2
  · have hlen := length_filter_add_length_filter_not Line.isTelemetryOnly
      (generate version generateClient ⟨server, false, true⟩ file).lines
    rw [ht, ← hl] at hlen
    have hsum : (file.services.flatMap fun s => s.unary.flatMap telemetryLines).length
        = (file.services.map fun s => 2 * s.unary.length).sum := by
      rw [length_flatMap_sum]
      simp only [length_unary_telemetryLines]
    cases server
    · simp only [List.length_cons, List.length_nil, Bool.false_eq_true, if_false] at hlen ⊢
      omega
    · simp only [List.length_cons, if_true, hsum] at hlen ⊢
      omega
  · intro s m
    refine ⟨(generateBuildMethod ⟨server, false, false⟩ s m).take 10,
      (generateBuildMethod ⟨server, false, false⟩ s m).drop 10, ?_, ?_⟩
    · simp [generateBuildMethod, telemetryLines]
    · simp [generateBuildMethod]
  · refine ⟨(writeImport ⟨server, false, false⟩).take 8,
      (writeImport ⟨server, false, false⟩).drop 8, ?_, ?_⟩
    · simp [writeImport]
    · simp [writeImport]

/-! ## Composition over the services -/

/-- C20: with client generation off, the unit of a file whose services are `xs ++ ys` is
the preamble (the unit of the same file without services) followed by the blocks of the
services of `xs` and then those of `ys`, in order; the block of a service is a function
of the configuration and that service alone. -/
theorem generation_compositional (version : String)
    (generateClient : Config → Service → List Line) (server otel : Bool) (file : File)
    (xs ys : List Service) :
    (generate version generateClient ⟨server, false, otel⟩
          { file with services := xs ++ ys }).lines
        = (generate version generateClient ⟨server, false, otel⟩
            { file with services := [] }).lines
          ++ xs.flatMap (serverBlock ⟨server, false, otel⟩)
          ++ ys.flatMap (serverBlock ⟨server, false, otel⟩)
      ∧ (∀ s, generateService generateClient ⟨server, false, otel⟩ s
          = serverBlock ⟨server, false, otel⟩ s)
      ∧ (∀ s, serverBlock ⟨server, false, otel⟩ s
          = if server then generateForService s ++ generateServer ⟨server, false, otel⟩ s
            else []) := by
  have hs : generateService generateClient ⟨server, false, otel⟩
      = serverBlock ⟨server, false, otel⟩ := by
    funext s
    simp [generateService, serverBlock]
  refine ⟨?_, fun s => by rw [hs], fun s => rfl⟩
  simp [generate, hs, List.flatMap_append]

/-! ## Imports and their use -/

/-- C17 (the code at the failing input): for the service `Greeter` under server on, client
off, the import block and the emitted code disagree for both settings of telemetry.  With
telemetry off `tracing` is imported and not referenced, and `trace` and `grpc` are
referenced and not imported; with telemetry on `grpc` is referenced and not imported. -/
theorem greeter_imports_mismatch :
    importedAliases ⟨true, false, false⟩
        = ["context", "endpoint", "grpctransport", "log", "stdopentracing", "opentracing",
           "tracing"]
      ∧ referencedAliases (serverBlock ⟨true, false, false⟩ greeter)
        = ["context", "endpoint", "grpctransport", "log", "stdopentracing", "opentracing",
           "trace", "grpc"]
      ∧ importedAliases ⟨true, false, true⟩
        = ["context", "endpoint", "grpctransport", "log", "stdopentracing", "opentracing",
           "tracing", "trace"]
      ∧ referencedAliases (serverBlock ⟨true, false, true⟩ greeter)
        = ["context", "endpoint", "grpctransport", "log", "stdopentracing", "opentracing",
           "tracing", "trace", "grpc"] := by
  refine ⟨?_, ?_, ?_, ?_⟩ <;> decide

theorem grpc_referenced_not_imported (server otel : Bool) (s : Service) :
    (generateServer ⟨server, false, otel⟩ s).any (Line.refersTo "grpc") = true
      ∧ "grpc" ∉ importedAliases ⟨server, false, otel⟩ := by
  refine ⟨?_, ?_⟩
  · rw [List.any_eq_true]
    refine ⟨Line.sprintf "func (s *%s) RegisterService(server *grpc.Server) \x7b" [s.goName],
      ?_, rfl⟩
    simp [generateServer, generateRegisterService]
  · cases server <;> cases otel <;> decide

/-! ## The package-level names -/

theorem affix_injective (p q a b : String) (h : p ++ a ++ q = p ++ b ++ q) : a = b := by
  apply String.ext
  have hd := congrArg String.data h
  simp only [String.data_append] at hd
  exact List.append_cancel_left (List.append_cancel_right hd)

theorem prefix_injective (p a b : String) (h : p ++ a = p ++ b) : a = b := by
  apply String.ext
  have hd := congrArg String.data h
  simp only [String.data_append] at hd
  exact List.append_cancel_left hd

theorem methodNames_nodup (x : String) : (methodNames x).Nodup := by
  simp [methodNames, String.ext_iff, String.data_append]

theorem new_not_mem_methodNames (s x : String) : "New" ++ s ∉ methodNames x := by
  simp [methodNames, String.ext_iff, String.data_append]

theorem methodNames_disjoint (x y : String) (h : x ≠ y) :
    List.Disjoint (methodNames x) (methodNames y) := by
  have hd : x.data ≠ y.data := fun e => h (String.ext e)
  simp only [methodNames, List.disjoint_left, List.mem_cons, List.mem_singleton,
    List.not_mem_nil, or_false, String.ext_iff, String.data_append]
  intro a ha
  rcases ha with h1 | h1 | h1 | h1 <;> simp [h1, hd]

theorem filterMap_map_of_none {α β γ : Type} (f : α → β) (g : β → Option γ)
    (h : ∀ a, g (f a) = none) (l : List α) :
    (l.map f).filterMap g = [] := by
  induction l with
  | nil => rfl
  | cons a l ih => simp [List.filterMap_cons, h, ih]

theorem serverDecls_topLevelNames (cfg : Config) (s : Service) :
    (serverDecls cfg s).filterMap Decl.topLevelName
      = (s.unary.flatMap fun m => methodNames m.goName)
        ++ [s.goName, "New" ++ s.goName] := by
  rw [serverDecls_eq]
  simp only [List.filterMap_append, filterMap_flatMap_eq]
  rw [filterMap_map_of_none _ _ (fun _ => rfl), filterMap_map_of_none _ _ (fun _ => rfl)]
  simp [Decl.topLevelName, methodNames]

theorem blockNames_nodup (services : List Service)
    (hm : ((services.flatMap Service.unary).map fun m => m.goName).Nodup)
    (hs : (services.map fun s => s.goName).Nodup)
    (hnew : ∀ s ∈ services, ∀ t ∈ services, s.goName ≠ "New" ++ t.goName)
    (hgen : ∀ s ∈ services, ∀ m ∈ services.flatMap Service.unary,
      s.goName ∉ methodNames m.goName) :
    (services.flatMap fun s =>
        (s.unary.flatMap fun m => methodNames m.goName)
          ++ [s.goName, "New" ++ s.goName]).Nodup := by
  rw [← (List.flatMap_append_perm services
      (fun s => s.unary.flatMap fun m => methodNames m.goName)
      (fun s => [s.goName, "New" ++ s.goName])).nodup_iff]
  rw [← List.flatMap_assoc services Service.unary (fun m => methodNames m.goName)]
  rw [List.nodup_append]
  refine ⟨?_, ?_, ?_⟩
  · rw [List.nodup_flatMap]
    refine ⟨fun m _ => methodNames_nodup _, ?_⟩
    exact (List.pairwise_map.1 hm).imp (fun h => methodNames_disjoint _ _ h)
  · rw [List.nodup_flatMap]
    refine ⟨?_, ?_⟩
    · intro s hmem
      have h1 := hnew s hmem s hmem
      simp [h1]
    · refine (List.pairwise_map.1 hs).imp_of_mem ?_
      intro a b ha hb hab
      have h1 := hnew a ha b hb
      have h2 := hnew b hb a ha
      have h3 : "New" ++ a.goName ≠ "New" ++ b.goName :=
        fun e => hab (prefix_injective _ _ _ e)
      simp [Function.onFun, List.disjoint_left, hab, h1, h3, Ne.symm h2]
  · rw [List.disjoint_left]
    intro n hn hn2
    obtain ⟨m, hmU, hnm⟩ := List.mem_flatMap.1 hn
    obtain ⟨s, hsS, hns⟩ := List.mem_flatMap.1 hn2
    simp only [List.mem_cons, List.mem_singleton, List.not_mem_nil, or_false] at hns
    rcases hns with e | e
    · exact hgen s hsS m hmU (e ▸ hnm)
    · exact new_not_mem_methodNames s.goName m.goName (e ▸ hnm)

theorem declared_names_in_text (m s : String) :
    (Line.sprintf "func make%sEndpoint(s %sServer) endpoint.Endpoint \x7b" [m, s]).render
        = "func " ++ ("make" ++ m ++ "Endpoint") ++ "(s " ++ s
          ++ "Server) endpoint.Endpoint \x7b"
      ∧ (Line.sprintf "func decode%sRequest(_ context.Context, req interface\x7b\x7d) (interface\x7b\x7d, error) \x7b" [m]).render
        = "func " ++ ("decode" ++ m ++ "Request")
          ++ "(_ context.Context, req interface\x7b\x7d) (interface\x7b\x7d, error) \x7b"
      ∧ (Line.sprintf "func encode%sResponse(_ context.Context, rsp interface\x7b\x7d) (interface\x7b\x7d, error) \x7b" [m]).render
        = "func " ++ ("encode" ++ m ++ "Response")
          ++ "(_ context.Context, rsp interface\x7b\x7d) (interface\x7b\x7d, error) \x7b"
      ∧ (Line.sprintf "func Make%sHandler(s %sServer) *grpctransport.Server \x7b" [m, s]).render
        = "func " ++ ("Make" ++ m ++ "Handler") ++ "(s " ++ s
          ++ "Server) *grpctransport.Server \x7b"
      ∧ (Line.sprintf "type %s struct \x7b" [s]).render = "type " ++ s ++ " struct \x7b"
      ∧ (Line.sprintf "func New%s(s %sServer, logger log.Logger) *%s \x7b" [s, s, s]).render
        = "func " ++ ("New" ++ s) ++ "(s " ++ s ++ "Server, logger log.Logger) *" ++ s
          ++ " \x7b" := by
  refine ⟨?_, ?_, ?_, ?_, ?_, ?_⟩ <;>
    · apply String.ext
      simp [Line.render, sprintf, sprintfAux, String.data_append]

/-- C18 (the code at the failing input): the file with the services `Users` and `Orders`,
each with the one method `Get`, has pairwise distinct service names and pairwise distinct
method names within each service, and its unit declares each of `makeGetEndpoint`,
`decodeGetRequest`, `encodeGetResponse` and `MakeGetHandler` twice, once for each service,
so its package-level names are not pairwise distinct. -/
theorem same_method_name_in_two_services_clashes :
    (twoGetFile.services.map fun s => s.goName).Nodup
      ∧ (∀ s ∈ twoGetFile.services, (s.methods.map fun m => m.goName).Nodup)
      ∧ ¬ (generate "v1" (fun _ _ => []) ⟨true, false, false⟩ twoGetFile).topLevelNames.Nodup
      ∧ (generate "v1" (fun _ _ => []) ⟨true, false, false⟩ twoGetFile).topLevelNames.count
          "makeGetEndpoint" = 2
      ∧ (generate "v1" (fun _ _ => []) ⟨true, false, false⟩ twoGetFile).topLevelNames.count
          "decodeGetRequest" = 2
      ∧ (generate "v1" (fun _ _ => []) ⟨true, false, false⟩ twoGetFile).topLevelNames.count
          "encodeGetResponse" = 2
      ∧ (generate "v1" (fun _ _ => []) ⟨true, false, false⟩ twoGetFile).topLevelNames.count
          "MakeGetHandler" = 2
      ∧ "func makeGetEndpoint(s UsersServer) endpoint.Endpoint \x7b"
        ∈ (generate "v1" (fun _ _ => []) ⟨true, false, false⟩ twoGetFile).lines.map
            Line.render
      ∧ "func makeGetEndpoint(s OrdersServer) endpoint.Endpoint \x7b"
        ∈ (generate "v1" (fun _ _ => []) ⟨true, false, false⟩ twoGetFile).lines.map
            Line.render := by
  refine ⟨?_, ?_, ?_, ?_, ?_, ?_, ?_, ?_, ?_⟩ <;> decide

/-- The extent of the clash: when the unary methods of a file have pairwise distinct names
across all its services, its services have pairwise distinct names, and no service name is
a generated name (`New` followed by a service name, or one of the four function names of
a unary method), the package-level declarations emitted with server on and client off
have pairwise distinct names. -/
theorem top_level_names_unique (version : String)
    (generateClient : Config → Service → List Line) (otel : Bool) (file : File)
    (hm : ((file.services.flatMap Service.unary).map fun m => m.goName).Nodup)
    (hs : (file.services.map fun s => s.goName).Nodup)
    (hnew : ∀ s ∈ file.services, ∀ t ∈ file.services, s.goName ≠ "New" ++ t.goName)
    (hgen : ∀ s ∈ file.services, ∀ m ∈ file.services.flatMap Service.unary,
      s.goName ∉ methodNames m.goName) :
    (generate version generateClient ⟨true, false, otel⟩ file).topLevelNames.Nodup := by
  unfold GeneratedFile.topLevelNames
  rw [generate_decls_server_only, filterMap_flatMap_eq]
  simp only [serverDecls_topLevelNames]
  exact blockNames_nodup file.services hm hs hnew hgen

/-- The file with the one service `Greeter` and its method `SayHello` declares six
pairwise distinct package-level names. -/
theorem top_level_names_unique_witness :
    ((helloFile.services.flatMap Service.unary).map fun m => m.goName).Nodup
      ∧ (helloFile.services.map fun s => s.goName).Nodup
      ∧ (∀ s ∈ helloFile.services, ∀ t ∈ helloFile.services,
          s.goName ≠ "New" ++ t.goName)
      ∧ (∀ s ∈ helloFile.services, ∀ m ∈ helloFile.services.flatMap Service.unary,
          s.goName ∉ methodNames m.goName)
      ∧ (generate "v1" (fun _ _ => []) ⟨true, false, false⟩ helloFile).topLevelNames
        = ["makeSayHelloEndpoint", "decodeSayHelloRequest", "encodeSayHelloResponse",
           "MakeSayHelloHandler", "Greeter", "NewGreeter"]
      ∧ (generate "v1" (fun _ _ => []) ⟨true, false, false⟩ helloFile).topLevelNames.Nodup :=
  ⟨by decide, by decide, by decide, by decide, by decide,
    top_level_names_unique "v1" (fun _ _ => []) false helloFile
      (by decide) (by decide) (by decide) (by decide)⟩

end GokitEndpoint
